import Mathlib

/-!
Verification of the Firestore service facade and data helpers of the
kinaru-sys-admin repository. The repository code (firebaseService.tsx, the
user-management screen and the mock data generator) is shallowly embedded
here: JavaScript runtime values become the inductive type `Value`, objects
become association lists with JavaScript spread/override semantics, and the
external Firestore backend (an opaque third-party service in the repository)
is modelled as an in-memory store with the documented query semantics
(filter, then order, then cursor cut, then limit; default ordering by
document id). Asynchronous functions returning promises become functions
returning `Except String`, with a thrown validation error embedded as
`Except.error`. Server timestamps are modelled by an explicit `now : Nat`
parameter standing for the server clock at commit time.
-/

/-- Model of a JavaScript runtime value as stored in Firestore documents:
null, booleans, numbers (as rationals), strings, resolved server timestamps,
and nested objects. The distinguished JavaScript value `undefined` is
represented by absence of a key (lookup returning `none`). -/
inductive Value where
  | null : Value
  | bool (b : Bool) : Value
  | num (q : ℚ) : Value
  | str (s : String) : Value
  | time (t : Nat) : Value
  | obj (fields : List (String × Value)) : Value

/-- A JavaScript object: an ordered association list of fields. Objects
built from literals have pairwise distinct keys. -/
abbrev JSObj := List (String × Value)

mutual

/-- Structural equality of values, modelling deep equality of Firestore
field values (used by the == query operator). -/
def Value.beq : Value → Value → Bool
  | .null, .null => true
  | .bool a, .bool b => a == b
  | .num a, .num b => a == b
  | .str a, .str b => a == b
  | .time a, .time b => a == b
  | .obj a, .obj b => beqFields a b
  | _, _ => false

/-- Field-list equality used by `Value.beq` on nested objects. -/
def beqFields : List (String × Value) → List (String × Value) → Bool
  | [], [] => true
  | (k, v) :: xs, (l, w) :: ys => k == l && Value.beq v w && beqFields xs ys
  | _, _ => false

end

instance : BEq Value := ⟨Value.beq⟩

/-- JavaScript truthiness of a value: null, false, 0 and the empty string
are falsy; every object (including timestamps) is truthy. -/
def Value.truthy : Value → Bool
  | .null => false
  | .bool b => b
  | .num q => q != 0
  | .str s => s != ""
  | .time _ => true
  | .obj _ => true

/-- Field lookup in an object; `none` models the JavaScript `undefined`
obtained when reading an absent property. -/
def jsGet (o : JSObj) (k : String) : Option Value :=
  match o with
  | [] => none
  | (k₁, v) :: rest => if k₁ = k then some v else jsGet rest k

/-- Assignment of one field, as performed by a later entry of an object
literal or one step of a spread: an existing key is overwritten in place,
a new key is appended at the end. -/
def jsSet (o : JSObj) (k : String) (v : Value) : JSObj :=
  match o with
  | [] => [(k, v)]
  | (k₁, v₁) :: rest => if k₁ = k then (k, v) :: rest else (k₁, v₁) :: jsSet rest k v

/-- Spread of the fields of `upd` over `base`, as in the object literal
with base fields first and the fields of `upd` after them: later keys win. -/
def jsMergeObj (base upd : JSObj) : JSObj :=
  upd.foldl (fun acc p => jsSet acc p.1 p.2) base

/-- Characters of a string with leading and trailing whitespace removed,
the semantics of the JavaScript trim used by the validators. -/
def trimChars (s : String) : List Char :=
  ((s.data.dropWhile Char.isWhitespace).reverse.dropWhile Char.isWhitespace).reverse

/-- The isValidString helper of firebaseService: a string whose trimmed
form is non-empty (the typeof check always holds in the typed embedding). -/
def isValidString (s : String) : Bool := decide (trimChars s ≠ [])

/-- A stored Firestore document: its id together with its data fields. Also
stands for the QueryDocumentSnapshot handed back as a pagination cursor. -/
structure FsDoc where
  id : String
  data : JSObj

/-- Model of the Firestore backend state: a list of documents keyed by
collection name and document id. -/
abbrev Store := List ((String × String) × JSObj)

/-- Backend point read: the data of the document with the given id in the
given collection, if present. -/
def storeGet (s : Store) (col id : String) : Option JSObj :=
  match s with
  | [] => none
  | (key, d) :: rest => if key.1 = col ∧ key.2 = id then some d else storeGet rest col id

/-- Replacement of the data of an existing document. -/
def replaceDoc (s : Store) (col id : String) (d : JSObj) : Store :=
  s.map (fun e => if e.1.1 = col ∧ e.1.2 = id then ((col, id), d) else e)

/-- Backend setDoc semantics: with merge, the written fields are spread
over the existing document; without merge (or when the document does not
exist) the written object becomes the document. -/
def storeSet (s : Store) (col id : String) (w : JSObj) (merge : Bool) : Store :=
  match storeGet s col id with
  | some old => replaceDoc s col id (if merge then jsMergeObj old w else w)
  | none => s ++ [((col, id), w)]

/-- All documents of one collection, in storage order. -/
def colDocs (s : Store) (col : String) : List FsDoc :=
  (s.filter (fun e => e.1.1 == col)).map (fun e => ⟨e.1.2, e.2⟩)

/-- The object handed to callers for a document snapshot, translating the
literal with the id field first and the document data spread after it. -/
def objOfDoc (d : FsDoc) : JSObj :=
  jsMergeObj [("id", .str d.id)] d.data

/-- The addDocument facade: validates the collection name and the payload,
then appends a new document (with backend-chosen id `newId`) stamped with
creation and update timestamps, returning the new id. Mirrors lines
243-261 of firebaseService. -/
def addDocument (s : Store) (now : Nat) (newId : String) (collectionName : String)
    (data : Value) : Except String (String × Store) :=
  if !isValidString collectionName then .error "Nom de collection invalide"
  else match data with
    | .obj fields =>
        let written := jsSet (jsSet fields "createdAt" (.time now)) "updatedAt" (.time now)
        .ok (newId, s ++ [((collectionName, newId), written)])
    | _ => .error "Les données doivent être un objet"

/-- The setDocument facade: validates inputs, then writes the payload with
updatedAt stamped to the server time and createdAt taken from the payload
when it carries a non-nullish createdAt, a fresh server timestamp
otherwise; the write replaces or merges per the merge flag. Mirrors lines
272-297 of firebaseService. -/
def setDocument (s : Store) (now : Nat) (collectionName id : String) (data : Value)
    (merge : Bool) : Except String (String × Store) :=
  if !isValidString collectionName then .error "Nom de collection invalide"
  else if !isValidString id then .error "ID de document invalide"
  else match data with
    | .obj fields =>
        let created := match jsGet fields "createdAt" with
          | some .null => Value.time now
          | some v => v
          | none => Value.time now
        let written := jsSet (jsSet fields "updatedAt" (.time now)) "createdAt" created
        .ok (id, storeSet s collectionName id written merge)
    | _ => .error "Les données doivent être un objet"

/-- The getDocumentById facade: validates inputs, then returns the document
data extended with its id, or none when the document is absent. Mirrors
lines 306-319 of firebaseService. -/
def getDocumentById (s : Store) (collectionName id : String) :
    Except String (Option JSObj) :=
  if !isValidString collectionName then .error "Nom de collection invalide"
  else if !isValidString id then .error "ID de document invalide"
  else match storeGet s collectionName id with
    | some d => .ok (some (objOfDoc ⟨id, d⟩))
    | none => .ok none

/-- Total order used by the modelled backend to compare field values when
sorting: values of different kinds are ranked by kind. -/
def Value.rank : Value → Nat
  | .null => 0
  | .bool _ => 1
  | .num _ => 2
  | .str _ => 3
  | .time _ => 4
  | .obj _ => 5

/-- Comparison of two field values used for orderBy; nested objects of
equal rank are not ordered further (no claim depends on it). -/
def Value.cmp (a b : Value) : Ordering :=
  match a, b with
  | .bool x, .bool y => compare x y
  | .num x, .num y => if x < y then .lt else if x = y then .eq else .gt
  | .str x, .str y => compare x y
  | .time x, .time y => compare x y
  | _, _ => compare a.rank b.rank

/-- A where clause of queryCollection: field path, operator string, value. -/
structure QueryCondition where
  field : String
  op : String
  value : Value

/-- An orderBy clause of queryCollection; the direction is the runtime
string checked against asc and desc by the validator. -/
structure OrderOption where
  field : String
  direction : String

/-- The option object accepted by queryCollection. The page size is a
JavaScript number, kept as an optional rational so that zero, negative and
non-integer page sizes are representable. -/
structure QueryOptions where
  collectionName : String
  conditions : List QueryCondition := []
  orders : List OrderOption := []
  pageSize : Option ℚ := none
  startAfterDoc : Option FsDoc := none

/-- The result of queryCollection: the page data and the cursor. -/
structure QueryResult where
  data : List JSObj
  lastVisible : Option FsDoc

/-- Backend evaluation of one comparison operator on field values. -/
def evalOp (op : String) (a b : Value) : Bool :=
  if op == "==" then Value.beq a b
  else if op == "!=" then !Value.beq a b
  else if op == "<" then Value.cmp a b == .lt
  else if op == "<=" then Value.cmp a b != .gt
  else if op == ">" then Value.cmp a b == .gt
  else if op == ">=" then Value.cmp a b != .lt
  else false

/-- Whether a document matches every where clause; a document lacking the
tested field does not match. -/
def matchesConds (cs : List QueryCondition) (d : FsDoc) : Bool :=
  cs.all (fun c =>
    match jsGet d.data c.field with
    | some v => evalOp c.op v c.value
    | none => false)

/-- Comparison by one orderBy clause; a missing field sorts as null, and
the desc direction swaps the ascending comparison (the source falls back
to asc for any other direction after validation). -/
def cmpByOrder (o : OrderOption) (a b : FsDoc) : Ordering :=
  let va := (jsGet a.data o.field).getD .null
  let vb := (jsGet b.data o.field).getD .null
  let c := Value.cmp va vb
  if o.direction == "desc" then c.swap else c

/-- Document comparison under a list of orderBy clauses, with the implicit
tie-break on the document id used by the backend. -/
def cmpDocs (ords : List OrderOption) (a b : FsDoc) : Ordering :=
  match ords with
  | [] => compare a.id b.id
  | o :: rest =>
      match cmpByOrder o a b with
      | .eq => cmpDocs rest a b
      | c => c

/-- Insertion step of the stable sort of the modelled backend. -/
def insertDoc (ords : List OrderOption) (a : FsDoc) : List FsDoc → List FsDoc
  | [] => [a]
  | b :: bs => if cmpDocs ords a b != .gt then a :: b :: bs else b :: insertDoc ords a bs

/-- Sorting of the matching documents by the orderBy clauses (insertion
sort; ties broken by document id inside `cmpDocs`). -/
def sortDocs (ords : List OrderOption) (l : List FsDoc) : List FsDoc :=
  l.foldr (insertDoc ords) []

/-- The cursor cut of startAfter: everything strictly after the document
carrying the cursor id (cursors always come from a page of the same
query, so the id identifies the cut position). -/
def afterId (l : List FsDoc) (i : String) : List FsDoc :=
  ((l.dropWhile (fun d => d.id != i)).drop 1)

/-- The limit clause: applied only when the page size is truthy, taking
the floor of the (validated) numeric page size. -/
def effTake (p : Option ℚ) (l : List FsDoc) : List FsDoc :=
  match p with
  | none => l
  | some q => if q == 0 then l else l.take q.floor.toNat

/-- The filtered and ordered document list of a query, before pagination. -/
def sortedFiltered (collectionName : String) (cs : List QueryCondition)
    (ords : List OrderOption) (s : Store) : List FsDoc :=
  sortDocs ords ((colDocs s collectionName).filter (matchesConds cs))

/-- The page of documents produced by the backend for the full option set:
filter, order, cursor cut, then limit. -/
def pageDocs (opts : QueryOptions) (s : Store) : List FsDoc :=
  let l := sortedFiltered opts.collectionName opts.conditions opts.orders s
  let cut := match opts.startAfterDoc with
    | none => l
    | some d => afterId l d.id
  effTake opts.pageSize cut

/-- The pageSize validation guard of queryCollection: a truthy page size
that is not a positive integer is rejected (a zero page size is falsy in
JavaScript and skips the check). Mirrors lines 405-407 of firebaseService. -/
def pageSizeBad : Option ℚ → Bool
  | none => false
  | some q => q != 0 && (!(q.den == 1) || decide (q ≤ 0))

/-- The queryCollection facade: four sequential validations, then the
backend query; the returned cursor is the last document of the page when
the page is non-empty and null otherwise. Mirrors lines 397-448 of
firebaseService. -/
def queryCollection (opts : QueryOptions) (s : Store) : Except String QueryResult :=
  if !isValidString opts.collectionName then .error "Nom de collection invalide"
  else if pageSizeBad opts.pageSize then .error "Taille de page invalide"
  else if opts.conditions.any (fun c => !isValidString c.field || !isValidString c.op) then
    .error "Conditions de requête invalides"
  else if opts.orders.any (fun o =>
      !isValidString o.field || !(o.direction == "asc" || o.direction == "desc")) then
    .error "Conditions de tri invalides"
  else .ok ⟨(pageDocs opts s).map objOfDoc, (pageDocs opts s).getLast?⟩

/-- The getCollection facade: validates the name and returns every
document of the collection (in the backend default id order) extended
with its id. Mirrors lines 327-336 of firebaseService. -/
def getCollection (s : Store) (collectionName : String) : Except String (List JSObj) :=
  if !isValidString collectionName then .error "Nom de collection invalide"
  else .ok ((sortDocs [] (colDocs s collectionName)).map objOfDoc)

/-- The updateDocument facade: validates inputs, then merges the payload
stamped with a fresh updatedAt into the existing document; the backend
rejects an update of a missing document. Mirrors lines 346-364 of
firebaseService. -/
def updateDocument (s : Store) (now : Nat) (collectionName id : String)
    (data : Value) : Except String (String × Store) :=
  if !isValidString collectionName then .error "Nom de collection invalide"
  else if !isValidString id then .error "ID de document invalide"
  else match data with
    | .obj fields =>
        match storeGet s collectionName id with
        | some old =>
            .ok (id, replaceDoc s collectionName id
              (jsMergeObj old (jsSet fields "updatedAt" (.time now))))
        | none => .error "Échec de la mise à jour du document : document absent"
    | _ => .error "Les données doivent être un objet"

/-- The deleteDocumentById facade: validates inputs, then removes the
document (deletion of a missing document succeeds). Mirrors lines 373-385
of firebaseService. -/
def deleteDocumentById (s : Store) (collectionName id : String) : Except String Store :=
  if !isValidString collectionName then .error "Nom de collection invalide"
  else if !isValidString id then .error "ID de document invalide"
  else .ok (s.filter (fun e => !(e.1.1 == collectionName && e.1.2 == id)))

/-- The listenToCollection facade, modelled by its validations and the
first snapshot delivered to the callback (the callback and error callback
are functions by typing and are not part of the state). Mirrors lines
463-500 of firebaseService: the collection name and page size are
validated, conditions and orders are not. -/
def listenToCollection (collectionName : String) (cs : List QueryCondition)
    (ords : List OrderOption) (pageSize : Option ℚ) (s : Store) :
    Except String (List JSObj) :=
  if !isValidString collectionName then .error "Nom de collection invalide"
  else if pageSizeBad pageSize then .error "Taille de page invalide"
  else .ok ((effTake pageSize (sortedFiltered collectionName cs ords s)).map objOfDoc)

/-- The listenToDocument facade, modelled by its validations and the first
snapshot delivered to the callback. Mirrors lines 511-529 of
firebaseService. -/
def listenToDocument (collectionName id : String) (s : Store) :
    Except String (Option JSObj) :=
  if !isValidString collectionName then .error "Nom de collection invalide"
  else if !isValidString id then .error "ID de document invalide"
  else match storeGet s collectionName id with
    | some d => .ok (some (objOfDoc ⟨id, d⟩))
    | none => .ok none

/-- One entry of the operations array given to runBatch: the declared kind
(a runtime string), the target document reference, and the optional
payload and merge flag. -/
structure BatchOperation where
  type : String
  ref : String × String
  data : Option Value := none
  merge : Option Bool := none

/-- A validated write queued on the local batch object before commit. -/
inductive BatchWrite where
  | set (ref : String × String) (data : JSObj) (merge : Bool) : BatchWrite
  | update (ref : String × String) (data : JSObj) : BatchWrite
  | delete (ref : String × String) : BatchWrite

/-- The validation-and-queueing loop of runBatch: each operation is checked
in order and queued locally; the first invalid operation throws, before any
network interaction. Mirrors lines 547-562 of firebaseService. -/
def buildBatch : List BatchOperation → Except String (List BatchWrite)
  | [] => .ok []
  | op :: rest =>
    if !(op.type == "set" || op.type == "update" || op.type == "delete") then
      .error ("Type invalide : " ++ op.type)
    else if op.type == "set" then
      match op.data with
      | some (.obj f) => (buildBatch rest).map (fun ws => .set op.ref f (op.merge.getD false) :: ws)
      | _ => .error "Les données doivent être un objet pour set"
    else if op.type == "update" then
      match op.data with
      | some (.obj f) => (buildBatch rest).map (fun ws => .update op.ref f :: ws)
      | _ => .error "Les données doivent être un objet pour update"
    else (buildBatch rest).map (fun ws => .delete op.ref :: ws)

/-- Application of one committed batch write to the backend store (an
update of a missing document is modelled as a no-op; commit-time backend
failures are outside the scope of the claims). -/
def applyWrite (s : Store) : BatchWrite → Store
  | .set ref d m => storeSet s ref.1 ref.2 d m
  | .update ref d =>
      match storeGet s ref.1 ref.2 with
      | some old => replaceDoc s ref.1 ref.2 (jsMergeObj old d)
      | none => s
  | .delete ref => s.filter (fun e => !(e.1.1 == ref.1 && e.1.2 == ref.2))

/-- The runBatch facade: rejects an empty operations array, validates and
queues every operation locally, then commits all of them as one atomic
unit. Mirrors lines 541-569 of firebaseService. -/
def runBatch (ops : List BatchOperation) (s : Store) : Except String Store :=
  if ops.isEmpty then .error "Les opérations doivent être un tableau non vide"
  else match buildBatch ops with
    | .error e => .error e
    | .ok ws => .ok (ws.foldl applyWrite s)

/-- Well-formedness of one batch operation as checked by the loop: a
recognized kind, and an object payload for set and update. -/
def opWellFormed (op : BatchOperation) : Bool :=
  if op.type == "set" || op.type == "update" then
    match op.data with
    | some (.obj _) => true
    | _ => false
  else op.type == "delete"

/-- The write queued for a well-formed operation (junk fields for the
unreachable ill-formed cases). -/
def opWrite (op : BatchOperation) : BatchWrite :=
  if op.type == "set" then
    .set op.ref (match op.data with | some (.obj f) => f | _ => []) (op.merge.getD false)
  else if op.type == "update" then
    .update op.ref (match op.data with | some (.obj f) => f | _ => [])
  else .delete op.ref

/-- String-or-empty defaulting of fetchUsers: the field value when truthy,
the empty string otherwise, translating the JavaScript or-default. -/
def strOr (o : JSObj) (k : String) : Value :=
  match jsGet o k with
  | some v => if v.truthy then v else .str ""
  | none => .str ""

/-- Nullish-coalescing defaulting of fetchUsers: the field value unless it
is null or absent. -/
def nullishOr (o : JSObj) (k : String) (d : Value) : Value :=
  match jsGet o k with
  | some .null => d
  | some v => v
  | none => d

/-- Defaulting of one notification channel: the channel value of the
nested notificationPrefs object unless the object or the channel is
nullish, in which case true. -/
def prefOr (o : JSObj) (ch : String) : Value :=
  match jsGet o "notificationPrefs" with
  | some (.obj prefs) =>
      match jsGet prefs ch with
      | some .null => .bool true
      | some v => v
      | none => .bool true
  | _ => .bool true

/-- The record built by fetchUsers for one fetched document, translating
the object literal of lines 722-747 of the user-management screen field by
field. -/
def mapFetchedUser (o : JSObj) : JSObj :=
  [("uid", (jsGet o "id").getD .null),
   ("nom", strOr o "nom"),
   ("prenom", strOr o "prenom"),
   ("email", strOr o "email"),
   ("telephone", strOr o "telephone"),
   ("photoProfil", strOr o "photoProfil"),
   ("cniNumber", strOr o "cniNumber"),
   ("CNIDateDelivrer", strOr o "CNIDateDelivrer"),
   ("cniExpirationDate", strOr o "cniExpirationDate"),
   ("cniRecto", strOr o "cniRecto"),
   ("cniVerso", strOr o "cniVerso"),
   ("addresse", strOr o "addresse"),
   ("fcmToken", strOr o "fcmToken"),
   ("lastUpdated", strOr o "lastUpdated"),
   ("etat", nullishOr o "etat" (.num 1)),
   ("statut", nullishOr o "statut" (.num 1)),
   ("typeUsersId", nullishOr o "typeUsersId" (.num 3)),
   ("notificationPrefs", .obj
     [("messages", prefOr o "messages"),
      ("newProperties", prefOr o "newProperties"),
      ("payments", prefOr o "payments"),
      ("reservations", prefOr o "reservations"),
      ("visits", prefOr o "visits")])]

/-- The fetchUsers function of the user-management screen: fetches the
Users collection and maps every document through the defaulting literal;
errors are rethrown unchanged. Mirrors lines 719-752. -/
def fetchUsers (s : Store) : Except String (List JSObj) :=
  (getCollection s "Users").map (fun l => l.map mapFetchedUser)

/-- The role label map of the user-management screen (lines 755-761). -/
def roleMap : List (ℤ × String) :=
  [(1, "Visiteurs"), (2, "Locataires"), (3, "Proprietaire"),
   (4, "Administrateur"), (6, "Agence immobilière")]

/-- The status label map of the user-management screen (lines 763-767). -/
def statusMap : List (ℤ × String) :=
  [(1, "actif"), (0, "banni"), (2, "en_attente")]

/-- The getRoleLabel helper: the mapped label when present and truthy,
the fallback label otherwise (line 770). -/
def getRoleLabel (typeUsersId : ℤ) : String :=
  match roleMap.find? (fun p => p.1 == typeUsersId) with
  | some p => if p.2 == "" then "Inconnu" else p.2
  | none => "Inconnu"

/-- The getStatusLabel helper: the mapped label when present and truthy,
the fallback label otherwise (line 771). -/
def getStatusLabel (statut : ℤ) : String :=
  match statusMap.find? (fun p => p.1 == statut) with
  | some p => if p.2 == "" then "Inconnu" else p.2
  | none => "Inconnu"

/-- The notification preference record of the User interface. -/
structure NotificationPrefs where
  messages : Bool
  newProperties : Bool
  payments : Bool
  reservations : Bool
  visits : Bool

/-- The typed User record of the mock data module (src/types User
interface). -/
structure MockUser where
  uid : String
  nom : String
  prenom : String
  email : String
  telephone : String
  photoProfil : String
  cniNumber : String
  CNIDateDelivrer : String
  cniExpirationDate : String
  cniRecto : String
  cniVerso : String
  addresse : String
  fcmToken : String
  lastUpdated : String
  etat : ℤ
  statut : ℤ
  typeUsersId : ℤ
  notificationPrefs : NotificationPrefs

/-- The record pushed by one iteration of the mock-user loop for index i,
with the outcomes of the eleven Math.random() calls of that iteration
supplied as the stream r (indices 0 to 10, in source order: telephone,
cniNumber, lastUpdated, etat, statut, typeUsersId, then the five
notification channels). Mirrors lines 34-59 of the mock data module. -/
def mkMockUser (i : ℕ) (r : ℕ → ℚ) : MockUser where
  uid := toString i
  nom := "Nom" ++ toString i
  prenom := "Prenom" ++ toString i
  email := "user" ++ toString i ++ "@email.com"
  telephone := "+336" ++ toString ⌊10000000 + r 0 * 90000000⌋
  photoProfil := "https://images.pexels.com/photos/" ++ toString (220453 + i) ++
    "/pexels-photo-" ++ toString (220453 + i) ++ ".jpeg?w=150&h=150&fit=crop"
  cniNumber := "FR" ++ toString ⌊100000000 + r 1 * 900000000⌋
  CNIDateDelivrer := "2020-01-15"
  cniExpirationDate := "2030-01-15"
  cniRecto := "cni-recto-" ++ toString i ++ ".jpg"
  cniVerso := "cni-verso-" ++ toString i ++ ".jpg"
  addresse := toString i ++ " rue de Paris, 75001 Paris"
  fcmToken := "fcm-token-" ++ toString i
  lastUpdated := "2025-01-" ++ toString (⌊r 2 * 27⌋ + 1)
  etat := ⌊r 3 * 3⌋
  statut := ⌊r 4 * 3⌋
  typeUsersId := ⌊r 5 * 3⌋ + 1
  notificationPrefs :=
    ⟨decide (r 6 > 1/2), decide (r 7 > 1/2), decide (r 8 > 1/2),
     decide (r 9 > 1/2), decide (r 10 > 1/2)⟩

/-- The records appended by the generation loop for indices 2 through 40,
with r the stream of all Math.random() outcomes (eleven consumed per
iteration, in iteration order). -/
def genMockUsers (r : ℕ → ℚ) : List MockUser :=
  (List.range 39).map (fun j => mkMockUser (j + 2) (fun k => r (11 * j + k)))

/-- The literal first entry of the mockUsers array (lines 3-30 of the mock
data module). -/
def mockUsersSeed : List MockUser :=
  [{ uid := "1", nom := "Dupont", prenom := "Jean", email := "jean.dupont@email.com",
     telephone := "+33612345678",
     photoProfil := "https://images.pexels.com/photos/220453/pexels-photo-220453.jpeg?w=150&h=150&fit=crop",
     cniNumber := "FR123456789", CNIDateDelivrer := "2020-01-15",
     cniExpirationDate := "2030-01-15", cniRecto := "cni-recto-1.jpg",
     cniVerso := "cni-verso-1.jpg", addresse := "123 rue de Paris, 75001 Paris",
     fcmToken := "fcm-token-1", lastUpdated := "2025-01-27",
     etat := 1, statut := 1, typeUsersId := 1,
     notificationPrefs := ⟨true, true, true, true, true⟩ }]

/-- The mockUsers array after the generation loop has run. -/
def mockUsers (r : ℕ → ℚ) : List MockUser :=
  mockUsersSeed ++ genMockUsers r

theorem jsGet_jsSet (o : JSObj) (k : String) (v : Value) (k' : String) :
    jsGet (jsSet o k v) k' = if k' = k then some v else jsGet o k' := by
  induction o with
  | nil =>
      by_cases h : k' = k
      · subst h; simp [jsSet, jsGet]
      · have h2 : ¬ k = k' := fun hh => h hh.symm
        simp [jsSet, jsGet, h, h2]
  | cons p rest ih =>
      obtain ⟨k₁, v₁⟩ := p
      by_cases h1 : k₁ = k
      · subst h1
        by_cases h2 : k' = k₁
        · subst h2; simp [jsSet, jsGet]
        · have h3 : ¬ k₁ = k' := fun hh => h2 hh.symm
          simp [jsSet, jsGet, h2, h3]
      · by_cases h2 : k₁ = k'
        · subst h2
          simp [jsSet, jsGet, h1]
        · simp [jsSet, jsGet, h1, h2, ih]

theorem keys_mem_jsSet (o : JSObj) (k : String) (v : Value) (k' : String) :
    k' ∈ (jsSet o k v).map Prod.fst ↔ k' ∈ o.map Prod.fst ∨ k' = k := by
  induction o with
  | nil => simp [jsSet]
  | cons p rest ih =>
      obtain ⟨k₁, v₁⟩ := p
      by_cases h1 : k₁ = k
      · subst h1; simp [jsSet]; tauto
      · simp [jsSet, h1, ih]; tauto

theorem nodup_keys_jsSet (o : JSObj) (k : String) (v : Value)
    (h : (o.map Prod.fst).Nodup) : ((jsSet o k v).map Prod.fst).Nodup := by
  induction o with
  | nil => simp [jsSet]
  | cons p rest ih =>
      obtain ⟨k₁, v₁⟩ := p
      simp only [List.map_cons, List.nodup_cons] at h
      by_cases h1 : k₁ = k
      · subst h1; simpa [jsSet] using h
      · simp only [jsSet, h1, if_false, List.map_cons, List.nodup_cons]
        refine ⟨fun hmem => ?_, ih h.2⟩
        rcases (keys_mem_jsSet rest k v k₁).mp hmem with h2 | h2
        · exact h.1 h2
        · exact h1 h2

theorem jsMergeObj_cons (b : JSObj) (k₀ : String) (v₀ : Value) (rest : JSObj) :
    jsMergeObj b ((k₀, v₀) :: rest) = jsMergeObj (jsSet b k₀ v₀) rest := rfl

theorem jsGet_merge_notMem (u b : JSObj) (k : String) (h : k ∉ u.map Prod.fst) :
    jsGet (jsMergeObj b u) k = jsGet b k := by
  induction u generalizing b with
  | nil => rfl
  | cons p rest ih =>
      obtain ⟨k₀, v₀⟩ := p
      simp only [List.map_cons, List.mem_cons, not_or] at h
      rw [jsMergeObj_cons, ih _ h.2, jsGet_jsSet]
      simp [h.1]

theorem jsGet_merge_mem (u b : JSObj) (k : String) (hnd : (u.map Prod.fst).Nodup)
    (h : k ∈ u.map Prod.fst) : jsGet (jsMergeObj b u) k = jsGet u k := by
  induction u generalizing b with
  | nil => simp at h
  | cons p rest ih =>
      obtain ⟨k₀, v₀⟩ := p
      simp only [List.map_cons, List.nodup_cons] at hnd
      simp only [List.map_cons, List.mem_cons] at h
      rw [jsMergeObj_cons]
      rcases h with h | h
      · subst h
        rw [jsGet_merge_notMem _ _ _ hnd.1, jsGet_jsSet]
        simp [jsGet]
      · have hne : ¬ k₀ = k := fun hh => hnd.1 (hh ▸ h)
        rw [ih _ hnd.2 h]
        simp [jsGet, hne]

theorem afterId_append (a b : List FsDoc) (c : FsDoc)
    (h : c.id ∉ a.map FsDoc.id) : afterId (a ++ c :: b) c.id = b := by
  induction a with
  | nil => simp [afterId, List.dropWhile_cons]
  | cons d rest ih =>
      simp only [List.map_cons, List.mem_cons, not_or] at h
      have hne : (d.id != c.id) = true := by
        simp [bne_iff_ne]
        exact fun hh => h.1 hh.symm
      simp only [List.cons_append, afterId, List.dropWhile_cons, hne, if_true]
      exact ih h.2

theorem take_append_drop_len {α : Type} (l : List α) (n : ℕ) :
    l.take n ++ l.drop (l.take n).length = l := by
  rw [List.length_take]
  rcases le_total n l.length with h | h
  · rw [min_eq_left h, List.take_append_drop]
  · rw [min_eq_right h, List.drop_length, List.append_nil, List.take_of_length_le h]

theorem effTake_append (p : Option ℚ) (l : List FsDoc) :
    effTake p l ++ l.drop (effTake p l).length = l := by
  match p with
  | none => simp [effTake]
  | some q =>
      simp only [effTake]
      split
      · simp
      · exact take_append_drop_len l _

theorem queryCollection_ok_elim (opts : QueryOptions) (s : Store) (r : QueryResult)
    (h : queryCollection opts s = .ok r) :
    isValidString opts.collectionName = true ∧
    pageSizeBad opts.pageSize = false ∧
    (opts.conditions.any fun c => !isValidString c.field || !isValidString c.op) = false ∧
    (opts.orders.any fun o =>
      !isValidString o.field || !(o.direction == "asc" || o.direction == "desc")) = false ∧
    r = ⟨(pageDocs opts s).map objOfDoc, (pageDocs opts s).getLast?⟩ := by
  unfold queryCollection at h
  split at h
  · simp at h
  · split at h
    · simp at h
    · split at h
      · simp at h
      · split at h
        · simp at h
        · rename_i h1 h2 h3 h4
          refine ⟨by simpa using h1, by simpa using h2, by simpa using h3,
            by simpa using h4, ?_⟩
          injection h with h
          exact h.symm

theorem queryCollection_ok_intro (opts : QueryOptions) (s : Store)
    (h1 : isValidString opts.collectionName = true)
    (h2 : pageSizeBad opts.pageSize = false)
    (h3 : (opts.conditions.any fun c => !isValidString c.field || !isValidString c.op) = false)
    (h4 : (opts.orders.any fun o =>
      !isValidString o.field || !(o.direction == "asc" || o.direction == "desc")) = false) :
    queryCollection opts s =
      .ok ⟨(pageDocs opts s).map objOfDoc, (pageDocs opts s).getLast?⟩ := by
  have g1 : ¬ ((!isValidString opts.collectionName) = true) := by simp [h1]
  have g2 : ¬ (pageSizeBad opts.pageSize = true) := by simp [h2]
  have g3 : ¬ ((opts.conditions.any fun c =>
      !isValidString c.field || !isValidString c.op) = true) := by
    rw [h3]; simp
  have g4 : ¬ ((opts.orders.any fun o =>
      !isValidString o.field || !(o.direction == "asc" || o.direction == "desc")) = true) := by
    rw [h4]; simp
  unfold queryCollection
  rw [if_neg g1, if_neg g2, if_neg g3, if_neg g4]

theorem afterId_of_getLast (L : List FsDoc) (p : Option ℚ) (d : FsDoc)
    (hnd : (L.map FsDoc.id).Nodup)
    (hlast : (effTake p L).getLast? = some d) :
    afterId L d.id = L.drop (effTake p L).length := by
  obtain ⟨init, hinit⟩ := List.getLast?_eq_some_iff.mp hlast
  have hsplit : L = init ++ d :: L.drop (effTake p L).length := by
    conv_lhs => rw [← effTake_append p L]
    rw [hinit]
    simp
  have hd : d.id ∉ init.map FsDoc.id := by
    have hnd2 := hnd
    rw [hsplit] at hnd2
    simp only [List.map_append, List.map_cons, List.nodup_append] at hnd2
    intro hmem
    exact hnd2.2.2 hmem (List.mem_cons_self _ _)
  conv_lhs => rw [hsplit]
  exact afterId_append _ _ _ hd

theorem queryCollection_step (opts : QueryOptions) (s : Store) (r : QueryResult) (d : FsDoc)
    (hok : queryCollection opts s = .ok r)
    (hcur : opts.startAfterDoc = none)
    (hnd : ((sortedFiltered opts.collectionName opts.conditions opts.orders s).map
      FsDoc.id).Nodup)
    (hlast : r.lastVisible = some d) :
    queryCollection { opts with startAfterDoc := some d } s =
      .ok ⟨(effTake opts.pageSize ((sortedFiltered opts.collectionName opts.conditions
              opts.orders s).drop r.data.length)).map objOfDoc,
           (effTake opts.pageSize ((sortedFiltered opts.collectionName opts.conditions
              opts.orders s).drop r.data.length)).getLast?⟩ := by
  obtain ⟨h1, h2, h3, h4, hr⟩ := queryCollection_ok_elim opts s r hok
  have hpage : pageDocs opts s =
      effTake opts.pageSize (sortedFiltered opts.collectionName opts.conditions
        opts.orders s) := by
    simp [pageDocs, hcur]
  have hlast2 : (effTake opts.pageSize (sortedFiltered opts.collectionName
      opts.conditions opts.orders s)).getLast? = some d := by
    rw [← hpage]
    rw [hr] at hlast
    exact hlast
  have hlen : r.data.length = (effTake opts.pageSize (sortedFiltered
      opts.collectionName opts.conditions opts.orders s)).length := by
    rw [hr, ← hpage]
    simp
  have hcut : pageDocs { opts with startAfterDoc := some d } s =
      effTake opts.pageSize ((sortedFiltered opts.collectionName opts.conditions
        opts.orders s).drop r.data.length) := by
    simp only [pageDocs]
    rw [hlen]
    rw [afterId_of_getLast _ opts.pageSize d hnd hlast2]
  have hres := queryCollection_ok_intro { opts with startAfterDoc := some d } s h1 h2 h3 h4
  rw [hcut] at hres
  exact hres

/-- C10: getRoleLabel and getStatusLabel are total: every number outside
the mapped keys (1, 2, 3, 4, 6 for roles and 0, 1, 2 for statuses) is sent
to the fallback label Inconnu, and every mapped key is sent to its label
from roleMap and statusMap. -/
theorem role_status_labels_total :
    (∀ n : ℤ, n ≠ 1 → n ≠ 2 → n ≠ 3 → n ≠ 4 → n ≠ 6 → getRoleLabel n = "Inconnu") ∧
    getRoleLabel 1 = "Visiteurs" ∧ getRoleLabel 2 = "Locataires" ∧
    getRoleLabel 3 = "Proprietaire" ∧ getRoleLabel 4 = "Administrateur" ∧
    getRoleLabel 6 = "Agence immobilière" ∧
    (∀ n : ℤ, n ≠ 0 → n ≠ 1 → n ≠ 2 → getStatusLabel n = "Inconnu") ∧
    getStatusLabel 1 = "actif" ∧ getStatusLabel 0 = "banni" ∧
    getStatusLabel 2 = "en_attente" := by
  refine ⟨?_, rfl, rfl, rfl, rfl, rfl, ?_, rfl, rfl, rfl⟩
  · intro n h1 h2 h3 h4 h6
    have e1 : ((1 : ℤ) == n) = false := by simpa using Ne.symm h1
    have e2 : ((2 : ℤ) == n) = false := by simpa using Ne.symm h2
    have e3 : ((3 : ℤ) == n) = false := by simpa using Ne.symm h3
    have e4 : ((4 : ℤ) == n) = false := by simpa using Ne.symm h4
    have e6 : ((6 : ℤ) == n) = false := by simpa using Ne.symm h6
    simp [getRoleLabel, roleMap, List.find?, e1, e2, e3, e4, e6]
  · intro n h0 h1 h2
    have e0 : ((0 : ℤ) == n) = false := by simpa using Ne.symm h0
    have e1 : ((1 : ℤ) == n) = false := by simpa using Ne.symm h1
    have e2 : ((2 : ℤ) == n) = false := by simpa using Ne.symm h2
    simp [getStatusLabel, statusMap, List.find?, e0, e1, e2]

/-- Witness for C10: evaluation at the unmapped role 5 and status 7 and at
the mapped role 6. -/
theorem role_status_labels_total_witness :
    getRoleLabel 5 = "Inconnu" ∧ getStatusLabel 7 = "Inconnu" ∧
    getRoleLabel 6 = "Agence immobilière" :=
  ⟨role_status_labels_total.1 5 (by decide) (by decide) (by decide) (by decide)
      (by decide),
   role_status_labels_total.2.2.2.2.2.2.1 7 (by decide) (by decide) (by decide),
   role_status_labels_total.2.2.2.2.2.1⟩

/-- C7: with a valid collection name and id, getDocumentById returns ok
none when the document is missing (it does not throw), and the document
data extended with its id when it exists. -/
theorem getDocumentById_spec (s : Store) (col id : String)
    (hc : isValidString col = true) (hi : isValidString id = true) :
    (storeGet s col id = none → getDocumentById s col id = .ok none) ∧
    (∀ d, storeGet s col id = some d →
      getDocumentById s col id = .ok (some (objOfDoc ⟨id, d⟩))) := by
  unfold getDocumentById
  rw [if_neg (by simp [hc]), if_neg (by simp [hi])]
  constructor
  · intro h; rw [h]
  · intro d h; rw [h]

/-- Witness for C7: a store holding one document, read at a missing id and
at the stored id. -/
theorem getDocumentById_spec_witness :
    isValidString "c" = true ∧ isValidString "e" = true ∧
    getDocumentById [(("c", "d"), [("a", Value.num 1)])] "c" "e" = .ok none ∧
    getDocumentById [(("c", "d"), [("a", Value.num 1)])] "c" "d" =
      .ok (some (objOfDoc ⟨"d", [("a", Value.num 1)]⟩)) :=
  ⟨by decide, by decide,
   (getDocumentById_spec [(("c", "d"), [("a", Value.num 1)])] "c" "e"
     (by decide) (by decide)).1 rfl,
   (getDocumentById_spec [(("c", "d"), [("a", Value.num 1)])] "c" "d"
     (by decide) (by decide)).2 [("a", Value.num 1)] rfl⟩

/-- C5: for a collection name whose trimmed form is empty, every CRUD,
query and listener facade fails with the name-validation error, uniformly
in the backend state and all other arguments (hence before any backend
call). -/
theorem blank_collection_rejected (name : String) (h : trimChars name = []) :
    (∀ s now newId data,
      addDocument s now newId name data = .error "Nom de collection invalide") ∧
    (∀ s now id data m,
      setDocument s now name id data m = .error "Nom de collection invalide") ∧
    (∀ s id, getDocumentById s name id = .error "Nom de collection invalide") ∧
    (∀ s, getCollection s name = .error "Nom de collection invalide") ∧
    (∀ s now id data,
      updateDocument s now name id data = .error "Nom de collection invalide") ∧
    (∀ s id, deleteDocumentById s name id = .error "Nom de collection invalide") ∧
    (∀ s cs ords p cur,
      queryCollection ⟨name, cs, ords, p, cur⟩ s = .error "Nom de collection invalide") ∧
    (∀ s cs ords p,
      listenToCollection name cs ords p s = .error "Nom de collection invalide") ∧
    (∀ s id, listenToDocument name id s = .error "Nom de collection invalide") := by
  have hv : isValidString name = false := by simp [isValidString, h]
  refine ⟨?_, ?_, ?_, ?_, ?_, ?_, ?_, ?_, ?_⟩ <;> intros <;>
    simp [addDocument, setDocument, getDocumentById, getCollection, updateDocument,
      deleteDocumentById, queryCollection, listenToCollection, listenToDocument, hv]

/-- Witness for C5: the whitespace-only collection name evaluated in every
facade at concrete arguments. -/
theorem blank_collection_rejected_witness :
    trimChars " " = [] ∧
    addDocument [] 0 "n" " " (.obj []) = .error "Nom de collection invalide" ∧
    setDocument [] 0 " " "d" (.obj []) true = .error "Nom de collection invalide" ∧
    getDocumentById [] " " "d" = .error "Nom de collection invalide" ∧
    getCollection [] " " = .error "Nom de collection invalide" ∧
    updateDocument [] 0 " " "d" (.obj []) = .error "Nom de collection invalide" ∧
    deleteDocumentById [] " " "d" = .error "Nom de collection invalide" ∧
    queryCollection ⟨" ", [], [], none, none⟩ [] = .error "Nom de collection invalide" ∧
    listenToCollection " " [] [] none [] = .error "Nom de collection invalide" ∧
    listenToDocument " " "d" [] = .error "Nom de collection invalide" :=
  ⟨by decide,
   (blank_collection_rejected " " (by decide)).1 [] 0 "n" (.obj []),
   (blank_collection_rejected " " (by decide)).2.1 [] 0 "d" (.obj []) true,
   (blank_collection_rejected " " (by decide)).2.2.1 [] "d",
   (blank_collection_rejected " " (by decide)).2.2.2.1 [],
   (blank_collection_rejected " " (by decide)).2.2.2.2.1 [] 0 "d" (.obj []),
   (blank_collection_rejected " " (by decide)).2.2.2.2.2.1 [] "d",
   (blank_collection_rejected " " (by decide)).2.2.2.2.2.2.1 [] [] [] none none,
   (blank_collection_rejected " " (by decide)).2.2.2.2.2.2.2.1 [] [] [] none,
   (blank_collection_rejected " " (by decide)).2.2.2.2.2.2.2.2 [] "d"⟩

/-- Counterexample for C1: two setDocument calls with merge true on the
same document, payloads without createdAt, at server times 1 and 2. After
the second call the stored createdAt is the fresh timestamp of the second
call, not the timestamp written by the first call: the claim that the
creation timestamp is preserved fails on this input. -/
theorem setDocument_merge_createdAt_cex :
    setDocument [] 1 "c" "d" (.obj [("a", Value.num 1)]) true =
      .ok ("d", [(("c", "d"),
        [("a", Value.num 1), ("updatedAt", Value.time 1), ("createdAt", Value.time 1)])]) ∧
    setDocument
        [(("c", "d"),
          [("a", Value.num 1), ("updatedAt", Value.time 1), ("createdAt", Value.time 1)])]
        2 "c" "d" (.obj [("b", Value.num 2)]) true =
      .ok ("d", [(("c", "d"),
        [("a", Value.num 1), ("updatedAt", Value.time 2), ("createdAt", Value.time 2),
         ("b", Value.num 2)])]) ∧
    Value.time 2 ≠ Value.time 1 :=
  ⟨rfl, rfl, by simp⟩

/-- C1 as amended: calling setDocument twice with merge true on a fresh
document updates updatedAt and the fields of the second payload and leaves
every other stored field unchanged, except that createdAt is overwritten
with the second server timestamp whenever the second payload does not
itself carry a createdAt field (it is preserved only when the caller
passes the original createdAt through). -/
theorem setDocument_merge_twice (col id : String) (d1 d2 : JSObj) (t1 t2 : Nat)
    (hc : isValidString col = true) (hi : isValidString id = true)
    (hnd2 : (d2.map Prod.fst).Nodup)
    (h1 : jsGet d1 "createdAt" = none) (h2 : jsGet d2 "createdAt" = none) :
    ∃ doc1 doc2 : JSObj,
      setDocument [] t1 col id (.obj d1) true = .ok (id, [((col, id), doc1)]) ∧
      setDocument [((col, id), doc1)] t2 col id (.obj d2) true =
        .ok (id, [((col, id), doc2)]) ∧
      jsGet doc1 "createdAt" = some (.time t1) ∧
      jsGet doc1 "updatedAt" = some (.time t1) ∧
      jsGet doc2 "updatedAt" = some (.time t2) ∧
      jsGet doc2 "createdAt" = some (.time t2) ∧
      (∀ k, k ∈ d2.map Prod.fst → k ≠ "updatedAt" → k ≠ "createdAt" →
        jsGet doc2 k = jsGet d2 k) ∧
      (∀ k, k ∉ d2.map Prod.fst → k ≠ "updatedAt" → k ≠ "createdAt" →
        jsGet doc2 k = jsGet doc1 k) := by
  have hcb : ¬ ((!isValidString col) = true) := by simp [hc]
  have hib : ¬ ((!isValidString id) = true) := by simp [hi]
  set w1 := jsSet (jsSet d1 "updatedAt" (.time t1)) "createdAt" (.time t1) with hw1
  set w2 := jsSet (jsSet d2 "updatedAt" (.time t2)) "createdAt" (.time t2) with hw2
  have hndw2 : (w2.map Prod.fst).Nodup := by
    rw [hw2]
    exact nodup_keys_jsSet _ _ _ (nodup_keys_jsSet _ _ _ hnd2)
  refine ⟨w1, jsMergeObj w1 w2, ?_, ?_, ?_, ?_, ?_, ?_, ?_, ?_⟩
  · unfold setDocument
    rw [if_neg hcb, if_neg hib]
    simp only [h1]
    rfl
  · unfold setDocument
    rw [if_neg hcb, if_neg hib]
    simp only [h2]
    have hget : storeGet [((col, id), w1)] col id = some w1 := by
      simp [storeGet]
    simp only [storeSet, hget, replaceDoc, List.map_cons, List.map_nil, if_true]
    simp
  · rw [hw1, jsGet_jsSet]; simp
  · rw [hw1, jsGet_jsSet, jsGet_jsSet]; simp
  · have hmem : "updatedAt" ∈ w2.map Prod.fst := by
      rw [hw2, keys_mem_jsSet, keys_mem_jsSet]
      simp
    rw [jsGet_merge_mem _ _ _ hndw2 hmem, hw2, jsGet_jsSet, jsGet_jsSet]
    simp
  · have hmem : "createdAt" ∈ w2.map Prod.fst := by
      rw [hw2, keys_mem_jsSet]
      simp
    rw [jsGet_merge_mem _ _ _ hndw2 hmem, hw2, jsGet_jsSet]
    simp
  · intro k hk hku hkc
    have hmem : k ∈ w2.map Prod.fst := by
      rw [hw2, keys_mem_jsSet, keys_mem_jsSet]
      exact Or.inl (Or.inl hk)
    rw [jsGet_merge_mem _ _ _ hndw2 hmem, hw2, jsGet_jsSet, jsGet_jsSet]
    simp [hku, hkc]
  · intro k hk hku hkc
    have hmem : k ∉ w2.map Prod.fst := by
      rw [hw2, keys_mem_jsSet, keys_mem_jsSet]
      push_neg
      exact ⟨⟨hk, hku⟩, hkc⟩
    exact jsGet_merge_notMem _ _ _ hmem

/-- Witness for C1: the amended statement evaluated at the concrete inputs
of the counterexample scenario. -/
theorem setDocument_merge_twice_witness :
    isValidString "c" = true ∧
    jsGet [("a", Value.num 1)] "createdAt" = none ∧
    (∃ doc1 doc2 : JSObj,
      setDocument [] 1 "c" "d" (.obj [("a", Value.num 1)]) true =
        .ok ("d", [(("c", "d"), doc1)]) ∧
      setDocument [(("c", "d"), doc1)] 2 "c" "d" (.obj [("b", Value.num 2)]) true =
        .ok ("d", [(("c", "d"), doc2)]) ∧
      jsGet doc1 "createdAt" = some (.time 1) ∧
      jsGet doc1 "updatedAt" = some (.time 1) ∧
      jsGet doc2 "updatedAt" = some (.time 2) ∧
      jsGet doc2 "createdAt" = some (.time 2) ∧
      (∀ k, k ∈ [("b", Value.num 2)].map Prod.fst → k ≠ "updatedAt" → k ≠ "createdAt" →
        jsGet doc2 k = jsGet [("b", Value.num 2)] k) ∧
      (∀ k, k ∉ [("b", Value.num 2)].map Prod.fst → k ≠ "updatedAt" → k ≠ "createdAt" →
        jsGet doc2 k = jsGet doc1 k)) :=
  ⟨by decide, rfl,
   setDocument_merge_twice "c" "d" [("a", Value.num 1)] [("b", Value.num 2)] 1 2
     (by decide) (by decide) (by simp) rfl rfl⟩

/-- C6: for every successful queryCollection call the cursor is null
exactly when the returned page is empty; when the page is non-empty the
cursor is the last document of the page, and using it as the startAfterDoc
of a followup call yields the next page of the same ordered result list
(stated for a first call without cursor, over a result list with distinct
ids as guaranteed for documents of one collection). -/
theorem queryCollection_cursor_spec (opts : QueryOptions) (s : Store) (r : QueryResult)
    (hok : queryCollection opts s = .ok r) :
    (r.lastVisible = none ↔ r.data = []) ∧
    (∀ d, r.lastVisible = some d → r.data.getLast? = some (objOfDoc d)) ∧
    (∀ d, r.lastVisible = some d → opts.startAfterDoc = none →
      ((sortedFiltered opts.collectionName opts.conditions opts.orders s).map
        FsDoc.id).Nodup →
      queryCollection { opts with startAfterDoc := some d } s =
        .ok ⟨(effTake opts.pageSize ((sortedFiltered opts.collectionName opts.conditions
                opts.orders s).drop r.data.length)).map objOfDoc,
             (effTake opts.pageSize ((sortedFiltered opts.collectionName opts.conditions
                opts.orders s).drop r.data.length)).getLast?⟩) := by
  obtain ⟨h1, h2, h3, h4, hr⟩ := queryCollection_ok_elim opts s r hok
  refine ⟨?_, ?_, ?_⟩
  · rw [hr]
    simp [List.getLast?_eq_none_iff]
  · intro d hd
    rw [hr] at hd ⊢
    simp only [List.getLast?_map]
    simp only at hd
    rw [hd]
    rfl
  · intro d hd hcur hnd
    exact queryCollection_step opts s r d hok hcur hnd hd

/-- Witness for C6: a two-document collection queried with page size 1;
the cursor is the first document and the followup call returns the second. -/
theorem queryCollection_cursor_spec_witness :
    queryCollection ⟨"c", [], [], some 1, none⟩
        [(("c", "1"), []), (("c", "2"), [])] =
      .ok ⟨[objOfDoc ⟨"1", []⟩], some ⟨"1", []⟩⟩ ∧
    queryCollection ⟨"c", [], [], some 1, some ⟨"1", []⟩⟩
        [(("c", "1"), []), (("c", "2"), [])] =
      .ok ⟨(effTake (some 1) ((sortedFiltered "c" [] []
              [(("c", "1"), []), (("c", "2"), [])]).drop 1)).map objOfDoc,
           (effTake (some 1) ((sortedFiltered "c" [] []
              [(("c", "1"), []), (("c", "2"), [])]).drop 1)).getLast?⟩ := by
  have hok : queryCollection ⟨"c", [], [], some 1, none⟩
      [(("c", "1"), []), (("c", "2"), [])] =
      .ok ⟨[objOfDoc ⟨"1", []⟩], some ⟨"1", []⟩⟩ := rfl
  refine ⟨hok, ?_⟩
  exact (queryCollection_cursor_spec _ _ _ hok).2.2 ⟨"1", []⟩ rfl rfl (by decide)

/-- Counterexample for C2: a collection of five matching documents paged
with page size 2. The first two calls return two documents and a cursor as
claimed, but the third call, which returns the single remaining document,
returns that document as a non-null cursor, not the claimed null-or-absent
cursor (the code returns a null cursor only for an empty page). -/
theorem queryCollection_five_pages_cex :
    queryCollection ⟨"c", [], [], some 2, none⟩
        [(("c", "1"), []), (("c", "2"), []), (("c", "3"), []), (("c", "4"), []),
         (("c", "5"), [])] =
      .ok ⟨[objOfDoc ⟨"1", []⟩, objOfDoc ⟨"2", []⟩], some ⟨"2", []⟩⟩ ∧
    queryCollection ⟨"c", [], [], some 2, some ⟨"2", []⟩⟩
        [(("c", "1"), []), (("c", "2"), []), (("c", "3"), []), (("c", "4"), []),
         (("c", "5"), [])] =
      .ok ⟨[objOfDoc ⟨"3", []⟩, objOfDoc ⟨"4", []⟩], some ⟨"4", []⟩⟩ ∧
    queryCollection ⟨"c", [], [], some 2, some ⟨"4", []⟩⟩
        [(("c", "1"), []), (("c", "2"), []), (("c", "3"), []), (("c", "4"), []),
         (("c", "5"), [])] =
      .ok ⟨[objOfDoc ⟨"5", []⟩], some ⟨"5", []⟩⟩ ∧
    (some (⟨"5", []⟩ : FsDoc) : Option FsDoc) ≠ none :=
  ⟨rfl, rfl, rfl, by simp⟩

theorem pageSizeBad_two : pageSizeBad (some 2) = false := by
  simp [pageSizeBad]

theorem effTake_two (l : List FsDoc) : effTake (some 2) l = l.take 2 := by
  have h0 : ((2 : ℚ) == 0) = false := by
    simp [beq_iff_eq]
  have hf : ((2 : ℚ).floor.toNat) = 2 := by decide
  simp [effTake, h0, hf]

/-- C2 as amended: paging a query with five matching documents and page
size 2 returns two documents and a cursor, then two documents and a
cursor, then the single remaining document together with a non-null cursor
(that document itself); only a fourth call returns an empty page with a
null cursor. -/
theorem queryCollection_five_pages (col : String) (cs : List QueryCondition)
    (ords : List OrderOption) (s : Store) (d0 d1 d2 d3 d4 : FsDoc)
    (h1 : isValidString col = true)
    (h3 : (cs.any fun c => !isValidString c.field || !isValidString c.op) = false)
    (h4 : (ords.any fun o =>
      !isValidString o.field || !(o.direction == "asc" || o.direction == "desc")) = false)
    (hL : sortedFiltered col cs ords s = [d0, d1, d2, d3, d4])
    (hnd : ([d0, d1, d2, d3, d4].map FsDoc.id).Nodup) :
    queryCollection ⟨col, cs, ords, some 2, none⟩ s =
      .ok ⟨[objOfDoc d0, objOfDoc d1], some d1⟩ ∧
    queryCollection ⟨col, cs, ords, some 2, some d1⟩ s =
      .ok ⟨[objOfDoc d2, objOfDoc d3], some d3⟩ ∧
    queryCollection ⟨col, cs, ords, some 2, some d3⟩ s =
      .ok ⟨[objOfDoc d4], some d4⟩ ∧
    queryCollection ⟨col, cs, ords, some 2, some d4⟩ s = .ok ⟨[], none⟩ := by
  simp only [List.map_cons, List.map_nil, List.nodup_cons, List.mem_cons,
    List.not_mem_nil, or_false, not_or, List.nodup_nil, and_true] at hnd
  obtain ⟨⟨h01, h02, h03c, h04⟩, ⟨h12, h13, h14⟩, ⟨h23, h24⟩, h34, -⟩ := hnd
  have ha1 : afterId (sortedFiltered col cs ords s) d1.id = [d2, d3, d4] := by
    rw [hL]
    exact afterId_append [d0] [d2, d3, d4] d1 (by simp [Ne.symm h01])
  have ha3 : afterId (sortedFiltered col cs ords s) d3.id = [d4] := by
    rw [hL]
    exact afterId_append [d0, d1, d2] [d4] d3
      (by simp [Ne.symm h03c, Ne.symm h13, Ne.symm h23])
  have ha4 : afterId (sortedFiltered col cs ords s) d4.id = [] := by
    rw [hL]
    exact afterId_append [d0, d1, d2, d3] [] d4
      (by simp [Ne.symm h04, Ne.symm h14, Ne.symm h24, Ne.symm h34])
  have hp1 : pageDocs ⟨col, cs, ords, some 2, none⟩ s = [d0, d1] := by
    show effTake (some 2) (sortedFiltered col cs ords s) = [d0, d1]
    rw [effTake_two, hL]
    rfl
  have hp2 : pageDocs ⟨col, cs, ords, some 2, some d1⟩ s = [d2, d3] := by
    show effTake (some 2) (afterId (sortedFiltered col cs ords s) d1.id) = [d2, d3]
    rw [effTake_two, ha1]
    rfl
  have hp3 : pageDocs ⟨col, cs, ords, some 2, some d3⟩ s = [d4] := by
    show effTake (some 2) (afterId (sortedFiltered col cs ords s) d3.id) = [d4]
    rw [effTake_two, ha3]
    rfl
  have hp4 : pageDocs ⟨col, cs, ords, some 2, some d4⟩ s = [] := by
    show effTake (some 2) (afterId (sortedFiltered col cs ords s) d4.id) = []
    rw [effTake_two, ha4]
    rfl
  refine ⟨?_, ?_, ?_, ?_⟩
  · have := queryCollection_ok_intro ⟨col, cs, ords, some 2, none⟩ s h1 pageSizeBad_two h3 h4
    rw [hp1] at this
    simpa using this
  · have := queryCollection_ok_intro ⟨col, cs, ords, some 2, some d1⟩ s h1 pageSizeBad_two h3 h4
    rw [hp2] at this
    simpa using this
  · have := queryCollection_ok_intro ⟨col, cs, ords, some 2, some d3⟩ s h1 pageSizeBad_two h3 h4
    rw [hp3] at this
    simpa using this
  · have := queryCollection_ok_intro ⟨col, cs, ords, some 2, some d4⟩ s h1 pageSizeBad_two h3 h4
    rw [hp4] at this
    simpa using this

/-- Witness for C2: the amended pagination statement evaluated on a
concrete five-document collection. -/
theorem queryCollection_five_pages_witness :
    sortedFiltered "c" [] []
        [(("c", "1"), []), (("c", "2"), []), (("c", "3"), []), (("c", "4"), []),
         (("c", "5"), [])] =
      [⟨"1", []⟩, ⟨"2", []⟩, ⟨"3", []⟩, ⟨"4", []⟩, ⟨"5", []⟩] ∧
    (queryCollection ⟨"c", [], [], some 2, none⟩
        [(("c", "1"), []), (("c", "2"), []), (("c", "3"), []), (("c", "4"), []),
         (("c", "5"), [])] =
      .ok ⟨[objOfDoc ⟨"1", []⟩, objOfDoc ⟨"2", []⟩], some ⟨"2", []⟩⟩ ∧
    queryCollection ⟨"c", [], [], some 2, some ⟨"2", []⟩⟩
        [(("c", "1"), []), (("c", "2"), []), (("c", "3"), []), (("c", "4"), []),
         (("c", "5"), [])] =
      .ok ⟨[objOfDoc ⟨"3", []⟩, objOfDoc ⟨"4", []⟩], some ⟨"4", []⟩⟩ ∧
    queryCollection ⟨"c", [], [], some 2, some ⟨"4", []⟩⟩
        [(("c", "1"), []), (("c", "2"), []), (("c", "3"), []), (("c", "4"), []),
         (("c", "5"), [])] =
      .ok ⟨[objOfDoc ⟨"5", []⟩], some ⟨"5", []⟩⟩ ∧
    queryCollection ⟨"c", [], [], some 2, some ⟨"5", []⟩⟩
        [(("c", "1"), []), (("c", "2"), []), (("c", "3"), []), (("c", "4"), []),
         (("c", "5"), [])] = .ok ⟨[], none⟩) :=
  ⟨rfl,
   queryCollection_five_pages "c" [] []
     [(("c", "1"), []), (("c", "2"), []), (("c", "3"), []), (("c", "4"), []),
      (("c", "5"), [])]
     ⟨"1", []⟩ ⟨"2", []⟩ ⟨"3", []⟩ ⟨"4", []⟩ ⟨"5", []⟩
     (by decide) rfl rfl rfl (by decide)⟩

/-- Counterexample for C3: a supplied page size of 0 is not a positive
integer, yet queryCollection does not throw: the zero is falsy, skips the
page-size guard entirely, and the query succeeds (with no limit applied). -/
theorem queryCollection_pageSize_zero_cex :
    ¬ ((0 : ℚ) > 0) ∧
    queryCollection ⟨"c", [], [], some 0, none⟩ [] = .ok ⟨[], none⟩ :=
  ⟨by norm_num, rfl⟩

theorem pageSizeBad_true (q : ℚ) (h0 : q ≠ 0) (h : q.den ≠ 1 ∨ q ≤ 0) :
    pageSizeBad (some q) = true := by
  simp [pageSizeBad, h0]
  rcases h with h | h
  · exact Or.inl h
  · exact Or.inr h

/-- C3 as amended: queryCollection fails with a validation error, uniformly
in the backend state (hence before any backend query), whenever the
supplied page size is nonzero and not a positive integer (a page size of
exactly 0 is falsy in JavaScript, skips the check and does not throw), or
some condition has a blank field or operator, or some order has a
direction other than asc and desc. -/
theorem queryCollection_validation (opts : QueryOptions)
    (h : (∃ q, opts.pageSize = some q ∧ q ≠ 0 ∧ (q.den ≠ 1 ∨ q ≤ 0)) ∨
      (∃ c ∈ opts.conditions, trimChars c.field = [] ∨ trimChars c.op = []) ∨
      (∃ o ∈ opts.orders, o.direction ≠ "asc" ∧ o.direction ≠ "desc")) :
    ∃ e, ∀ s, queryCollection opts s = .error e := by
  by_cases hname : isValidString opts.collectionName = true
  · by_cases hps : pageSizeBad opts.pageSize = true
    · refine ⟨"Taille de page invalide", fun s => ?_⟩
      unfold queryCollection
      rw [if_neg (by simp [hname]), if_pos hps]
    · by_cases hcond : (opts.conditions.any fun c =>
          !isValidString c.field || !isValidString c.op) = true
      · refine ⟨"Conditions de requête invalides", fun s => ?_⟩
        unfold queryCollection
        rw [if_neg (by simp [hname]), if_neg hps, if_pos hcond]
      · rcases h with ⟨q, hq1, hq2, hq3⟩ | ⟨c, hc1, hc2⟩ | ⟨o, ho1, ho2⟩
        · exact absurd (by rw [hq1]; exact pageSizeBad_true q hq2 hq3) hps
        · refine absurd ?_ hcond
          rw [List.any_eq_true]
          refine ⟨c, hc1, ?_⟩
          rcases hc2 with h | h <;> simp [isValidString, h]
        · have hord : (opts.orders.any fun o =>
              !isValidString o.field ||
                !(o.direction == "asc" || o.direction == "desc")) = true := by
            rw [List.any_eq_true]
            refine ⟨o, ho1, ?_⟩
            simp [ho2.1, ho2.2]
          refine ⟨"Conditions de tri invalides", fun s => ?_⟩
          unfold queryCollection
          rw [if_neg (by simp [hname]), if_neg hps, if_neg hcond, if_pos hord]
  · refine ⟨"Nom de collection invalide", fun s => ?_⟩
    unfold queryCollection
    rw [if_pos (by simp [hname])]

/-- Witness for C3: a negative page size evaluated through the theorem. -/
theorem queryCollection_validation_witness :
    ((-1 : ℚ) ≠ 0 ∧ (-1 : ℚ) ≤ 0) ∧
    (∃ e, ∀ s, queryCollection ⟨"c", [], [], some (-1), none⟩ s = .error e) :=
  ⟨⟨by norm_num, by norm_num⟩,
   queryCollection_validation ⟨"c", [], [], some (-1), none⟩
     (Or.inl ⟨-1, rfl, by norm_num, Or.inr (by norm_num)⟩)⟩

theorem buildBatch_ok (ops : List BatchOperation)
    (h : ∀ op ∈ ops, opWellFormed op = true) :
    buildBatch ops = .ok (ops.map opWrite) := by
  induction ops with
  | nil => rfl
  | cons op rest ih =>
      have hop := h op (by simp)
      have hrest := ih (fun o ho => h o (by simp [ho]))
      by_cases hsu : (op.type == "set" || op.type == "update") = true
      · rw [opWellFormed, if_pos hsu] at hop
        rcases hd : op.data with - | v
        · rw [hd] at hop; simp at hop
        · rcases v with - | b | q | st | t | f
          · rw [hd] at hop; simp at hop
          · rw [hd] at hop; simp at hop
          · rw [hd] at hop; simp at hop
          · rw [hd] at hop; simp at hop
          · rw [hd] at hop; simp at hop
          · by_cases hset : (op.type == "set") = true
            · have h3 : (op.type == "set" || op.type == "update" || op.type == "delete")
                  = true := by simp [hset]
              rw [buildBatch, if_neg (by simp [h3]), if_pos hset, hd, hrest]
              rw [List.map_cons, opWrite, if_pos hset, hd]
              rfl
            · have hupd : (op.type == "update") = true := by
                rcases Bool.or_eq_true_iff.mp hsu with h | h
                · exact absurd h hset
                · exact h
              have h3 : (op.type == "set" || op.type == "update" || op.type == "delete")
                  = true := by simp [hupd]
              rw [buildBatch, if_neg (by simp [h3]), if_neg hset, if_pos hupd, hd, hrest]
              rw [List.map_cons, opWrite, if_neg hset, if_pos hupd, hd]
              rfl
      · rw [opWellFormed, if_neg hsu] at hop
        have h3 : (op.type == "set" || op.type == "update" || op.type == "delete")
            = true := by simp [hop]
        have hset : ¬ ((op.type == "set") = true) := fun hh => hsu (by simp [hh])
        have hupd : ¬ ((op.type == "update") = true) := fun hh => hsu (by simp [hh])
        rw [buildBatch, if_neg (by simp [h3]), if_neg hset, if_neg hupd, hrest]
        rw [List.map_cons, opWrite, if_neg hset, if_neg hupd]
        rfl

theorem buildBatch_err (ops : List BatchOperation)
    (h : ¬ ∀ op ∈ ops, opWellFormed op = true) :
    ∃ e, buildBatch ops = .error e := by
  induction ops with
  | nil => exact absurd (by simp) h
  | cons op rest ih =>
      by_cases hop : opWellFormed op = true
      · have hrest : ¬ ∀ o ∈ rest, opWellFormed o = true := by
          intro hall
          refine h ?_
          intro o ho
          rcases List.mem_cons.mp ho with rfl | ho
          · exact hop
          · exact hall o ho
        obtain ⟨e, he⟩ := ih hrest
        refine ⟨e, ?_⟩
        by_cases hsu : (op.type == "set" || op.type == "update") = true
        · rw [opWellFormed, if_pos hsu] at hop
          rcases hd : op.data with - | v
          · rw [hd] at hop; simp at hop
          · rcases v with - | b | q | st | t | f
            · rw [hd] at hop; simp at hop
            · rw [hd] at hop; simp at hop
            · rw [hd] at hop; simp at hop
            · rw [hd] at hop; simp at hop
            · rw [hd] at hop; simp at hop
            · by_cases hset : (op.type == "set") = true
              · have h3 : (op.type == "set" || op.type == "update" ||
                    op.type == "delete") = true := by simp [hset]
                rw [buildBatch, if_neg (by simp [h3]), if_pos hset, hd, he]
                rfl
              · have hupd : (op.type == "update") = true := by
                  rcases Bool.or_eq_true_iff.mp hsu with hh | hh
                  · exact absurd hh hset
                  · exact hh
                have h3 : (op.type == "set" || op.type == "update" ||
                    op.type == "delete") = true := by simp [hupd]
                rw [buildBatch, if_neg (by simp [h3]), if_neg hset, if_pos hupd, hd, he]
                rfl
        · rw [opWellFormed, if_neg hsu] at hop
          have h3 : (op.type == "set" || op.type == "update" || op.type == "delete")
              = true := by simp [hop]
          have hset : ¬ ((op.type == "set") = true) := fun hh => hsu (by simp [hh])
          have hupd : ¬ ((op.type == "update") = true) := fun hh => hsu (by simp [hh])
          rw [buildBatch, if_neg (by simp [h3]), if_neg hset, if_neg hupd, he]
          rfl
      · by_cases h3 : (op.type == "set" || op.type == "update" || op.type == "delete")
            = true
        · by_cases hset : (op.type == "set") = true
          · refine ⟨"Les données doivent être un objet pour set", ?_⟩
            have hbad : ∀ w, op.data = some (Value.obj w) → False := by
              intro w hw
              refine hop ?_
              rw [opWellFormed, if_pos (by simp [hset]), hw]
            rw [buildBatch, if_neg (by simp [h3]), if_pos hset]
            rcases hd : op.data with - | v
            · rfl
            · rcases v with - | b | q | st | t | f
              · rfl
              · rfl
              · rfl
              · rfl
              · rfl
              · exact absurd hd (by intro hh; exact hbad f hh)
          · by_cases hupd : (op.type == "update") = true
            · refine ⟨"Les données doivent être un objet pour update", ?_⟩
              have hbad : ∀ w, op.data = some (Value.obj w) → False := by
                intro w hw
                refine hop ?_
                rw [opWellFormed, if_pos (by simp [hupd]), hw]
              rw [buildBatch, if_neg (by simp [h3]), if_neg hset, if_pos hupd]
              rcases hd : op.data with - | v
              · rfl
              · rcases v with - | b | q | st | t | f
                · rfl
                · rfl
                · rfl
                · rfl
                · rfl
                · exact absurd hd (by intro hh; exact hbad f hh)
            · have hdel : (op.type == "delete") = true := by
                rcases Bool.or_eq_true_iff.mp h3 with hh | hh
                · rcases Bool.or_eq_true_iff.mp hh with hh2 | hh2
                  · exact absurd hh2 hset
                  · exact absurd hh2 hupd
                · exact hh
              have hwf : opWellFormed op = true := by
                rw [opWellFormed, if_neg (by simp [hset, hupd])]
                exact hdel
              exact absurd hwf hop
        · refine ⟨"Type invalide : " ++ op.type, ?_⟩
          rw [buildBatch, if_pos (by simp [h3])]

/-- Counterexample for C4: the empty operations list contains no
ill-formed operation, so the claim as stated promises an atomic commit,
but runBatch rejects the empty list with a validation error and commits
nothing. -/
theorem runBatch_empty_cex :
    (∀ op ∈ ([] : List BatchOperation), opWellFormed op = true) ∧
    runBatch [] [] = .error "Les opérations doivent être un tableau non vide" :=
  ⟨by simp, rfl⟩

/-- C4 as amended: for every non-empty list of batch operations, if some
operation has an unrecognized kind or a set or update operation has a
missing or non-object payload, runBatch fails with a validation error,
uniformly in the backend state (hence before any network interaction and
with no operation committed); otherwise all operations are queued and
committed as one atomic batch. The empty list is additionally rejected
with its own validation error before any network interaction. -/
theorem runBatch_spec (ops : List BatchOperation) (hne : ops ≠ []) :
    (¬ (∀ op ∈ ops, opWellFormed op = true) →
      ∃ e, ∀ s, runBatch ops s = .error e) ∧
    ((∀ op ∈ ops, opWellFormed op = true) →
      ∀ s, runBatch ops s = .ok ((ops.map opWrite).foldl applyWrite s)) := by
  have hemp : ¬ (ops.isEmpty = true) := by
    simp [List.isEmpty_iff, hne]
  constructor
  · intro h
    obtain ⟨e, he⟩ := buildBatch_err ops h
    refine ⟨e, fun s => ?_⟩
    rw [runBatch, if_neg hemp, he]
  · intro h s
    rw [runBatch, if_neg hemp, buildBatch_ok ops h]

/-- Witness for C4: a valid set followed by an operation of unrecognized
kind fails uniformly; a single delete commits. -/
theorem runBatch_spec_witness :
    ([(⟨"set", ("c", "d"), some (.obj [("a", Value.num 1)]), none⟩ : BatchOperation),
      ⟨"frobnicate", ("c", "e"), none, none⟩] ≠ []) ∧
    (∃ e, ∀ s, runBatch
      [⟨"set", ("c", "d"), some (.obj [("a", Value.num 1)]), none⟩,
       ⟨"frobnicate", ("c", "e"), none, none⟩] s = .error e) ∧
    runBatch [(⟨"delete", ("c", "d"), none, none⟩ : BatchOperation)]
        [(("c", "d"), [("a", Value.num 1)])] =
      .ok (([(⟨"delete", ("c", "d"), none, none⟩ : BatchOperation)].map
        opWrite).foldl applyWrite [(("c", "d"), [("a", Value.num 1)])]) :=
  ⟨by simp,
   (runBatch_spec
     [⟨"set", ("c", "d"), some (.obj [("a", Value.num 1)]), none⟩,
      ⟨"frobnicate", ("c", "e"), none, none⟩] (by simp)).1
     (by
       intro hall
       have := hall ⟨"frobnicate", ("c", "e"), none, none⟩ (by simp)
       simp [opWellFormed] at this),
   (runBatch_spec [⟨"delete", ("c", "d"), none, none⟩] (by simp)).2
     (by
       intro op hop
       simp at hop
       rw [hop]
       rfl)
     [(("c", "d"), [("a", Value.num 1)])]⟩

theorem floor3_mem (x : ℚ) (h0 : 0 ≤ x) (h1 : x < 1) :
    ⌊x * 3⌋ = 0 ∨ ⌊x * 3⌋ = 1 ∨ ⌊x * 3⌋ = 2 := by
  have hlo : (0 : ℤ) ≤ ⌊x * 3⌋ := Int.floor_nonneg.mpr (by positivity)
  have hhi : ⌊x * 3⌋ < 3 := Int.floor_lt.mpr (by push_cast; nlinarith)
  omega

/-- C8: for every outcome stream of the random number generator within
the contract of Math.random (values in the half-open unit interval), the
generation loop for indices 2 through 40 appends exactly 39 records to
the single seeded mock user, and every appended record has typeUsersId in
the set of 1, 2, 3 and statut in the set of 0, 1, 2. -/
theorem mock_users_loop (r : ℕ → ℚ) (hr : ∀ n, 0 ≤ r n ∧ r n < 1) :
    (genMockUsers r).length = 39 ∧
    (mockUsers r).length = 1 + 39 ∧
    (∀ u ∈ genMockUsers r,
      (u.typeUsersId = 1 ∨ u.typeUsersId = 2 ∨ u.typeUsersId = 3) ∧
      (u.statut = 0 ∨ u.statut = 1 ∨ u.statut = 2)) := by
  refine ⟨by simp [genMockUsers], by simp [mockUsers, mockUsersSeed, genMockUsers], ?_⟩
  intro u hu
  simp only [genMockUsers, List.mem_map, List.mem_range] at hu
  obtain ⟨j, hj, rfl⟩ := hu
  constructor
  · have hb := floor3_mem (r (11 * j + 5)) (hr (11 * j + 5)).1 (hr (11 * j + 5)).2
    simp only [mkMockUser]
    omega
  · have hb := floor3_mem (r (11 * j + 4)) (hr (11 * j + 4)).1 (hr (11 * j + 4)).2
    simp only [mkMockUser]
    omega

/-- Witness for C8: the loop evaluated on the constant one-half stream. -/
theorem mock_users_loop_witness :
    (∀ n : ℕ, 0 ≤ (fun _ : ℕ => (1 : ℚ) / 2) n ∧ (fun _ : ℕ => (1 : ℚ) / 2) n < 1) ∧
    ((genMockUsers (fun _ => (1 : ℚ) / 2)).length = 39 ∧
     (mockUsers (fun _ => (1 : ℚ) / 2)).length = 1 + 39 ∧
     (∀ u ∈ genMockUsers (fun _ => (1 : ℚ) / 2),
       (u.typeUsersId = 1 ∨ u.typeUsersId = 2 ∨ u.typeUsersId = 3) ∧
       (u.statut = 0 ∨ u.statut = 1 ∨ u.statut = 2))) :=
  ⟨fun n => ⟨by norm_num, by norm_num⟩,
   mock_users_loop (fun _ => (1 : ℚ) / 2) (fun n => ⟨by norm_num, by norm_num⟩)⟩

theorem insertDoc_length (ords : List OrderOption) (a : FsDoc) (l : List FsDoc) :
    (insertDoc ords a l).length = l.length + 1 := by
  induction l with
  | nil => rfl
  | cons b bs ih =>
      rw [insertDoc]
      split
      · simp
      · simp [ih]

theorem sortDocs_length (ords : List OrderOption) (l : List FsDoc) :
    (sortDocs ords l).length = l.length := by
  induction l with
  | nil => rfl
  | cons a rest ih =>
      show (insertDoc ords a (sortDocs ords rest)).length = rest.length + 1
      rw [insertDoc_length, ih]

/-- C9: fetchUsers maps every fetched document of the Users collection
through the defaulting record and drops none of them (the result has one
record per stored document); a missing statut defaults to 1, a missing
typeUsersId to 3, a missing etat to 1, a missing notificationPrefs object
yields every channel true, and every missing string field defaults to the
empty string. -/
theorem fetchUsers_defaults (s : Store) :
    fetchUsers s =
      .ok (((sortDocs [] (colDocs s "Users")).map objOfDoc).map mapFetchedUser) ∧
    (∀ l, fetchUsers s = .ok l → l.length = (colDocs s "Users").length) ∧
    (∀ o : JSObj,
      (jsGet o "statut" = none →
        jsGet (mapFetchedUser o) "statut" = some (.num 1)) ∧
      (jsGet o "typeUsersId" = none →
        jsGet (mapFetchedUser o) "typeUsersId" = some (.num 3)) ∧
      (jsGet o "etat" = none →
        jsGet (mapFetchedUser o) "etat" = some (.num 1)) ∧
      (jsGet o "notificationPrefs" = none →
        jsGet (mapFetchedUser o) "notificationPrefs" = some (.obj
          [("messages", .bool true), ("newProperties", .bool true),
           ("payments", .bool true), ("reservations", .bool true),
           ("visits", .bool true)])) ∧
      (∀ k ∈ ["nom", "prenom", "email", "telephone", "photoProfil", "cniNumber",
          "CNIDateDelivrer", "cniExpirationDate", "cniRecto", "cniVerso", "addresse",
          "fcmToken", "lastUpdated"],
        jsGet o k = none → jsGet (mapFetchedUser o) k = some (.str ""))) := by
  have hfetch : fetchUsers s =
      .ok (((sortDocs [] (colDocs s "Users")).map objOfDoc).map mapFetchedUser) := by
    rw [fetchUsers, getCollection, if_neg (by decide)]
    rfl
  refine ⟨hfetch, ?_, ?_⟩
  · intro l hl
    rw [hfetch] at hl
    injection hl with hl
    rw [← hl]
    simp [sortDocs_length]
  · intro o
    refine ⟨?_, ?_, ?_, ?_, ?_⟩
    · intro h
      have hv : jsGet (mapFetchedUser o) "statut" =
          some (nullishOr o "statut" (.num 1)) := rfl
      rw [hv]
      simp [nullishOr, h]
    · intro h
      have hv : jsGet (mapFetchedUser o) "typeUsersId" =
          some (nullishOr o "typeUsersId" (.num 3)) := rfl
      rw [hv]
      simp [nullishOr, h]
    · intro h
      have hv : jsGet (mapFetchedUser o) "etat" =
          some (nullishOr o "etat" (.num 1)) := rfl
      rw [hv]
      simp [nullishOr, h]
    · intro h
      have hv : jsGet (mapFetchedUser o) "notificationPrefs" =
          some (.obj
            [("messages", prefOr o "messages"),
             ("newProperties", prefOr o "newProperties"),
             ("payments", prefOr o "payments"),
             ("reservations", prefOr o "reservations"),
             ("visits", prefOr o "visits")]) := rfl
      rw [hv]
      simp [prefOr, h]
    · intro k hk h
      simp only [List.mem_cons, List.not_mem_nil, or_false] at hk
      rcases hk with rfl | rfl | rfl | rfl | rfl | rfl | rfl | rfl | rfl | rfl |
        rfl | rfl | rfl
      · rw [show jsGet (mapFetchedUser o) "nom" = some (strOr o "nom") from rfl]
        simp [strOr, h]
      · rw [show jsGet (mapFetchedUser o) "prenom" = some (strOr o "prenom") from rfl]
        simp [strOr, h]
      · rw [show jsGet (mapFetchedUser o) "email" = some (strOr o "email") from rfl]
        simp [strOr, h]
      · rw [show jsGet (mapFetchedUser o) "telephone" = some (strOr o "telephone") from rfl]
        simp [strOr, h]
      · rw [show jsGet (mapFetchedUser o) "photoProfil" = some (strOr o "photoProfil") from rfl]
        simp [strOr, h]
      · rw [show jsGet (mapFetchedUser o) "cniNumber" = some (strOr o "cniNumber") from rfl]
        simp [strOr, h]
      · rw [show jsGet (mapFetchedUser o) "CNIDateDelivrer" = some (strOr o "CNIDateDelivrer") from rfl]
        simp [strOr, h]
      · rw [show jsGet (mapFetchedUser o) "cniExpirationDate" = some (strOr o "cniExpirationDate") from rfl]
        simp [strOr, h]
      · rw [show jsGet (mapFetchedUser o) "cniRecto" = some (strOr o "cniRecto") from rfl]
        simp [strOr, h]
      · rw [show jsGet (mapFetchedUser o) "cniVerso" = some (strOr o "cniVerso") from rfl]
        simp [strOr, h]
      · rw [show jsGet (mapFetchedUser o) "addresse" = some (strOr o "addresse") from rfl]
        simp [strOr, h]
      · rw [show jsGet (mapFetchedUser o) "fcmToken" = some (strOr o "fcmToken") from rfl]
        simp [strOr, h]
      · rw [show jsGet (mapFetchedUser o) "lastUpdated" = some (strOr o "lastUpdated") from rfl]
        simp [strOr, h]

/-- Witness for C9: the empty store and the empty fetched document, where
every defaulted field takes its default. -/
theorem fetchUsers_defaults_witness :
    fetchUsers [] = .ok [] ∧
    jsGet [] "statut" = none ∧
    jsGet (mapFetchedUser []) "statut" = some (.num 1) ∧
    jsGet (mapFetchedUser []) "typeUsersId" = some (.num 3) ∧
    jsGet (mapFetchedUser []) "etat" = some (.num 1) ∧
    jsGet (mapFetchedUser []) "notificationPrefs" = some (.obj
      [("messages", .bool true), ("newProperties", .bool true),
       ("payments", .bool true), ("reservations", .bool true),
       ("visits", .bool true)]) ∧
    jsGet (mapFetchedUser []) "nom" = some (.str "") :=
  ⟨(fetchUsers_defaults []).1, rfl,
   ((fetchUsers_defaults []).2.2 []).1 rfl,
   ((fetchUsers_defaults []).2.2 []).2.1 rfl,
   ((fetchUsers_defaults []).2.2 []).2.2.1 rfl,
   ((fetchUsers_defaults []).2.2 []).2.2.2.1 rfl,
   ((fetchUsers_defaults []).2.2 []).2.2.2.2 "nom" (by simp) rfl⟩
